import Mathlib

/-!
Verification of the chatabase chart-query core: the configuration model,
the validator/normalizer (`validateChartConfig`, `ValidateAndNormalizeConfig`)
and the query builder (`BuildChartQuery`) are embedded below, translated
from the Go source.  Machine strings are Lean `String`s, Go `interface{}`
filter values are the tagged `GoValue` type, and the builder's possible
index-out-of-range crash is modelled by an `Option` wrapper (`none` means
the original program would crash before returning).

The emitted SQL is produced through a small fragment language (`Frag`):
a fragment is either literal text or a numbered placeholder.  Rendering a
fragment list yields exactly the string the Go code writes, while keeping
the placeholder structure visible to the theorems about argument binding.
-/

/-- A dynamically typed value stored in a filter (Go `interface{}`).
`nil` is Go's nil interface; `str`, `boolean` are the two types the
builder inspects with type assertions; `num` stands for every other
scalar, which the builder treats opaquely. -/
inductive GoValue where
  | nil
  | str (s : String)
  | boolean (b : Bool)
  | num (n : Int)
deriving DecidableEq, Repr

/-- Go struct `FilterConfig` (fields `Column, Operator, Value, Values, Raw, RawValues`). -/
structure FilterConfig where
  column : String := ""
  operator : String := ""
  value : GoValue := GoValue.nil
  values : List GoValue := []
  raw : String := ""
  rawValues : List GoValue := []
deriving DecidableEq, Repr

/-- Go struct `JoinConfig` (fields `Table, Alias, Type, Condition`). -/
structure JoinConfig where
  table : String := ""
  aliasName : String := ""
  typ : String := ""
  condition : String := ""
deriving DecidableEq, Repr

/-- Go struct `TableConfig` (fields `Name, Alias, Joins`). -/
structure TableConfig where
  name : String := ""
  aliasName : String := ""
  joins : List JoinConfig := []
deriving DecidableEq, Repr

/-- Go struct `AxisConfig`. -/
structure AxisConfig where
  column : String := ""
  label : String := ""
  aggregation : String := ""
  dataType : String := ""
  format : String := ""
  aliasName : String := ""
deriving DecidableEq, Repr

/-- Go struct `OrderConfig`. -/
structure OrderConfig where
  column : String := ""
  direction : String := ""
deriving DecidableEq, Repr

/-- Go struct `ChartOptions`. -/
structure ChartOptions where
  width : Int := 0
  height : Int := 0
  theme : String := ""
  stacked : Bool := false
  showLegend : Bool := false
  showGrid : Bool := false
  dateFormat : String := ""
  timeInterval : String := ""
  colors : List String := []
deriving DecidableEq, Repr

/-- Go struct `ChartConfig`. -/
structure ChartConfig where
  chartType : String := ""
  title : String := ""
  description : String := ""
  tables : List TableConfig := []
  xAxis : AxisConfig := {}
  yAxis : List AxisConfig := []
  groupBy : List String := []
  filters : List FilterConfig := []
  options : ChartOptions := {}
  limit : Int := 0
  orderBy : List OrderConfig := []
deriving DecidableEq, Repr

/-- Go `strings.ToLower`, modelled as per-character ASCII lowercasing over
the string's character list (every string this program lowercases is
ASCII; the list form keeps the function kernel-reducible). -/
def strToLower (s : String) : String := String.mk (s.data.map Char.toLower)

/-! ## Validator (Go `validateChartConfig` and helpers) -/

/-- Go helper `contains`: linear membership scan over a string slice. -/
def contains (slice : List String) (item : String) : Bool :=
  slice.any (fun s => s == item)

def validChartTypes : List String :=
  ["line", "bar", "pie", "scatter", "area", "histogram"]

def validAggregations : List String :=
  ["SUM", "COUNT", "AVG", "MIN", "MAX"]

def validJoinTypes : List String :=
  ["INNER", "LEFT", "RIGHT", "FULL"]

/-- The operator whitelist of Go `validateFilter` (matched case-sensitively). -/
def validOperators : List String :=
  ["=", "!=", ">", "<", ">=", "<=", "IN", "LIKE", "BETWEEN", "IS"]

/-- Go `validateJoinConfig`. -/
def validateJoinConfig (join : JoinConfig) (tableIndex joinIndex : Nat) : Except String Unit :=
  if join.table == "" then
    Except.error ("join table is required at table index " ++ toString tableIndex ++
      ", join index " ++ toString joinIndex)
  else if join.condition == "" then
    Except.error ("join condition is required at table index " ++ toString tableIndex ++
      ", join index " ++ toString joinIndex)
  else if join.typ != "" && !(contains validJoinTypes join.typ) then
    Except.error ("invalid join type \x27" ++ join.typ ++ "\x27 at table index " ++
      toString tableIndex ++ ", join index " ++ toString joinIndex ++
      ". Must be one of: " ++ String.intercalate (", ") validJoinTypes)
  else Except.ok ()

/-- Go `validateFilter`: a filter with a non-empty `Raw` passes unconditionally;
otherwise column, operator membership and operator-specific value
requirements are checked in order. -/
def validateFilter (filter : FilterConfig) (index : Nat) : Except String Unit :=
  if filter.raw != "" then Except.ok ()
  else if filter.column == "" then
    Except.error ("filter column is required at index " ++ toString index)
  else if filter.operator == "" then
    Except.error ("filter operator is required at index " ++ toString index)
  else if !(contains validOperators filter.operator) then
    Except.error ("invalid filter operator \x27" ++ filter.operator ++ "\x27 at index " ++
      toString index ++ ". Must be one of: " ++ String.intercalate (", ") validOperators)
  else if filter.operator == "IN" then
    if filter.values.length == 0 then
      Except.error ("IN operator requires \x27values\x27 array at filter index " ++ toString index)
    else Except.ok ()
  else if filter.operator == "BETWEEN" then
    if filter.values.length != 2 then
      Except.error ("BETWEEN operator requires exactly 2 values at filter index " ++ toString index)
    else Except.ok ()
  else if filter.operator == "IS" then Except.ok ()
  else
    if filter.value = GoValue.nil && filter.values.length == 0 then
      Except.error ("filter value is required for operator \x27" ++ filter.operator ++
        "\x27 at index " ++ toString index)
    else Except.ok ()

/-- The per-table join loop of Go `validateChartConfig`. -/
def validateJoins : List JoinConfig → Nat → Nat → Except String Unit
  | [], _, _ => Except.ok ()
  | j :: rest, tableIndex, joinIndex =>
    match validateJoinConfig j tableIndex joinIndex with
    | Except.error e => Except.error e
    | Except.ok _ => validateJoins rest tableIndex (joinIndex + 1)

/-- The table loop of Go `validateChartConfig`. -/
def validateTables : List TableConfig → Nat → Except String Unit
  | [], _ => Except.ok ()
  | t :: rest, i =>
    if t.name == "" then
      Except.error ("table name is required at index " ++ toString i)
    else match validateJoins t.joins i 0 with
    | Except.error e => Except.error e
    | Except.ok _ => validateTables rest (i + 1)

/-- The y-axis loop of Go `validateChartConfig`. -/
def validateYAxes : List AxisConfig → Nat → Except String Unit
  | [], _ => Except.ok ()
  | a :: rest, i =>
    if a.column == "" then
      Except.error ("y_axis column is required at index " ++ toString i)
    else if a.aggregation != "" && !(contains validAggregations a.aggregation) then
      Except.error ("invalid aggregation \x27" ++ a.aggregation ++ "\x27 for y_axis at index " ++
        toString i ++ ". Must be one of: " ++ String.intercalate (", ") validAggregations)
    else validateYAxes rest (i + 1)

/-- The filter loop of Go `validateChartConfig`. -/
def validateFilters : List FilterConfig → Nat → Except String Unit
  | [], _ => Except.ok ()
  | f :: rest, i =>
    match validateFilter f i with
    | Except.error e => Except.error e
    | Except.ok _ => validateFilters rest (i + 1)

/-- Go `validateChartConfig`: the checks run in exactly the source order —
empty chart type, empty title, empty table list, empty y-axis list,
chart-type membership, per-table name/join checks, x-axis column,
y-axis checks, filter checks. -/
def validateChartConfig (config : ChartConfig) : Except String Unit :=
  if config.chartType == "" then Except.error ("chart_type is required")
  else if config.title == "" then Except.error ("title is required")
  else if config.tables.length == 0 then Except.error ("at least one table is required")
  else if config.yAxis.length == 0 then Except.error ("at least one y-axis is required")
  else if !(contains validChartTypes config.chartType) then
    Except.error ("invalid chart_type: " ++ config.chartType ++ ". Must be one of: " ++
      String.intercalate (", ") validChartTypes)
  else match validateTables config.tables 0 with
  | Except.error e => Except.error e
  | Except.ok _ =>
    if config.xAxis.column == "" then Except.error ("x_axis column is required")
    else match validateYAxes config.yAxis 0 with
    | Except.error e => Except.error e
    | Except.ok _ => validateFilters config.filters 0

/-! ## Normalization (second half of Go `ValidateAndNormalizeConfig`) -/

def normalizeJoin (j : JoinConfig) : JoinConfig :=
  if j.typ == "" then { j with typ := "INNER" } else j

def normalizeTable (t : TableConfig) : TableConfig :=
  { t with joins := t.joins.map normalizeJoin }

def normalizeOrder (o : OrderConfig) : OrderConfig :=
  if o.direction == "" then { o with direction := "ASC" } else o

def normalizeOptions (o : ChartOptions) : ChartOptions :=
  { o with
    width := if o.width = 0 then 800 else o.width,
    height := if o.height = 0 then 400 else o.height,
    theme := if o.theme == "" then "light" else o.theme }

/-- The mutations Go `ValidateAndNormalizeConfig` applies after validation:
lowercase chart type, default join types, default order directions,
default visual options.  Filters are untouched. -/
def normalizeConfig (config : ChartConfig) : ChartConfig :=
  { config with
    chartType := strToLower config.chartType,
    tables := config.tables.map normalizeTable,
    orderBy := config.orderBy.map normalizeOrder,
    options := normalizeOptions config.options }

/-- Go `ValidateAndNormalizeConfig`: validate, then normalize. -/
def ValidateAndNormalizeConfig (config : ChartConfig) : Except String ChartConfig :=
  match validateChartConfig config with
  | Except.error e => Except.error e
  | Except.ok _ => Except.ok (normalizeConfig config)

/-! ## Query builder (Go `BuildChartQuery`)

The SQL text is assembled from fragments so that placeholders remain
syntactically identifiable; rendering a fragment list reproduces, byte for
byte, the string the Go code builds with `strings.Builder`. -/

/-- A piece of emitted SQL: literal text or a numbered `$n` placeholder. -/
inductive Frag where
  | text (s : String)
  | ph (n : Nat)
deriving DecidableEq, Repr

/-- Rendering a fragment: a placeholder `n` prints as `$n` (Go `fmt.Sprintf`). -/
def Frag.render : Frag → String
  | Frag.text s => s
  | Frag.ph n => "$" ++ toString n

def renderFrags : List Frag → String
  | [] => ""
  | f :: rest => f.render ++ renderFrags rest

/-- The placeholder numbers occurring in a fragment list, in emission order. -/
def placeholdersOf : List Frag → List Nat
  | [] => []
  | Frag.text _ :: rest => placeholdersOf rest
  | Frag.ph n :: rest => n :: placeholdersOf rest

/-- Continuation of a comma-separated placeholder list: each further
placeholder is preceded by `", "`. -/
def phFragsTail (start : Nat) : Nat → List Frag
  | 0 => []
  | n + 1 => Frag.text (", ") :: Frag.ph start :: phFragsTail (start + 1) n

/-- `cnt` consecutive placeholders starting at `start`, joined with `", "` —
exactly Go's `strings.Join(placeholders, ", ")` where `placeholders[j]`
is `$<start+j>`. -/
def phFrags (start : Nat) : Nat → List Frag
  | 0 => []
  | n + 1 => Frag.ph start :: phFragsTail (start + 1) n

/-- The non-nil values of a filter's `Values` slice, in order (the
`nonNullValues` accumulator of the Go IN / NOT IN branches). -/
def nonNullValues (values : List GoValue) : List GoValue :=
  values.filter (fun v => v ≠ GoValue.nil)

/-- The number of nil entries of `Values` (the `nullCount` counter). -/
def nullCount (values : List GoValue) : Nat :=
  values.countP (fun v => v = GoValue.nil)

/-- One iteration of the WHERE loop of Go `BuildChartQuery`: dispatch on the
lower-cased operator, returning the emitted fragments, the values appended
to `args`, and the updated `argIndex`.  `none` models the index-out-of-range
crash of `filter.Values[0]` / `filter.Values[1]` in the BETWEEN branch;
`Except.error` models the two explicit error returns. -/
def buildFilterIn (filter : FilterConfig) (argIndex : Nat) :
    List Frag × List GoValue × Nat :=
  if nullCount filter.values > 0 && (nonNullValues filter.values).length > 0 then
    (Frag.text ("(" ++ filter.column ++ " IN (") ::
      phFrags argIndex (nonNullValues filter.values).length ++
      [Frag.text (") OR " ++ filter.column ++ " IS NULL)")],
      nonNullValues filter.values, argIndex + (nonNullValues filter.values).length)
  else if nullCount filter.values > 0 then
    ([Frag.text (filter.column ++ " IS NULL")], [], argIndex)
  else
    (Frag.text (filter.column ++ " IN (") ::
      phFrags argIndex (nonNullValues filter.values).length ++ [Frag.text (")")],
      nonNullValues filter.values, argIndex + (nonNullValues filter.values).length)

def buildFilterNotIn (filter : FilterConfig) (argIndex : Nat) :
    List Frag × List GoValue × Nat :=
  if nullCount filter.values > 0 && (nonNullValues filter.values).length > 0 then
    (Frag.text ("(" ++ filter.column ++ " NOT IN (") ::
      phFrags argIndex (nonNullValues filter.values).length ++
      [Frag.text (") AND " ++ filter.column ++ " IS NOT NULL)")],
      nonNullValues filter.values, argIndex + (nonNullValues filter.values).length)
  else if nullCount filter.values > 0 then
    ([Frag.text (filter.column ++ " IS NOT NULL")], [], argIndex)
  else
    (Frag.text ("(" ++ filter.column ++ " NOT IN (") ::
      phFrags argIndex (nonNullValues filter.values).length ++
      [Frag.text (") OR " ++ filter.column ++ " IS NULL)")],
      nonNullValues filter.values, argIndex + (nonNullValues filter.values).length)

/-- The BETWEEN branch.  Go evaluates `filter.Values[0]` (crash when absent),
returns the error on a nil first bound, then evaluates `filter.Values[1]`
likewise — `||` short-circuit included. -/
def buildFilterBetween (filter : FilterConfig) (argIndex : Nat) :
    Option (Except String (List Frag × List GoValue × Nat)) :=
  match filter.values[0]? with
  | none => none
  | some v0 =>
    if v0 = GoValue.nil then some (Except.error ("BETWEEN operator cannot have NULL values"))
    else match filter.values[1]? with
    | none => none
    | some v1 =>
      if v1 = GoValue.nil then some (Except.error ("BETWEEN operator cannot have NULL values"))
      else some (Except.ok ([Frag.text (filter.column ++ " BETWEEN "), Frag.ph argIndex,
        Frag.text (" AND "), Frag.ph (argIndex + 1)], [v0, v1], argIndex + 2))

/-- The `=` / `!=` / `<>` branch with its NULL and boolean special cases. -/
def buildFilterEq (filter : FilterConfig) (argIndex : Nat) :
    List Frag × List GoValue × Nat :=
  match filter.value with
  | GoValue.nil =>
    if strToLower filter.operator == "=" then
      ([Frag.text (filter.column ++ " IS NULL")], [], argIndex)
    else ([Frag.text (filter.column ++ " IS NOT NULL")], [], argIndex)
  | GoValue.str s =>
    if strToLower s == "true" || strToLower s == "false" then
      if strToLower filter.operator == "=" then
        if strToLower s == "true" then ([Frag.text (filter.column ++ " IS TRUE")], [], argIndex)
        else ([Frag.text (filter.column ++ " IS FALSE")], [], argIndex)
      else
        if strToLower s == "true" then ([Frag.text (filter.column ++ " IS NOT TRUE")], [], argIndex)
        else ([Frag.text (filter.column ++ " IS NOT FALSE")], [], argIndex)
    else
      ([Frag.text (filter.column ++ " " ++ filter.operator ++ " "), Frag.ph argIndex],
        [GoValue.str s], argIndex + 1)
  | GoValue.boolean b =>
    if strToLower filter.operator == "=" then
      if b then ([Frag.text (filter.column ++ " IS TRUE")], [], argIndex)
      else ([Frag.text (filter.column ++ " IS FALSE")], [], argIndex)
    else
      if b then ([Frag.text (filter.column ++ " IS NOT TRUE")], [], argIndex)
      else ([Frag.text (filter.column ++ " IS NOT FALSE")], [], argIndex)
  | GoValue.num n =>
    ([Frag.text (filter.column ++ " " ++ filter.operator ++ " "), Frag.ph argIndex],
      [GoValue.num n], argIndex + 1)

/-- The `<` / `<=` / `>` / `>=` branch: nil values are a build error. -/
def buildFilterCmp (filter : FilterConfig) (argIndex : Nat) :
    Except String (List Frag × List GoValue × Nat) :=
  if filter.value = GoValue.nil then
    Except.error ("comparison operator " ++ filter.operator ++ " cannot compare with NULL")
  else
    Except.ok ([Frag.text (filter.column ++ " " ++ filter.operator ++ " "), Frag.ph argIndex],
      [filter.value], argIndex + 1)

/-- The LIKE-family branch and the default branch share this shape:
nil emits `IS NULL`, anything else binds one placeholder. -/
def buildFilterBind (filter : FilterConfig) (argIndex : Nat) :
    List Frag × List GoValue × Nat :=
  if filter.value = GoValue.nil then
    ([Frag.text (filter.column ++ " IS NULL")], [], argIndex)
  else
    ([Frag.text (filter.column ++ " " ++ filter.operator ++ " "), Frag.ph argIndex],
      [filter.value], argIndex + 1)

/-- One iteration of the WHERE loop of Go `BuildChartQuery`: dispatch on the
lower-cased operator, returning the emitted fragments, the values appended
to `args`, and the updated `argIndex`.  `none` models the index-out-of-range
crash of `filter.Values[0]` / `filter.Values[1]` in the BETWEEN branch;
`Except.error` models the two explicit error returns. -/
def buildFilter (filter : FilterConfig) (argIndex : Nat) :
    Option (Except String (List Frag × List GoValue × Nat)) :=
  if strToLower filter.operator == "in" then
    some (Except.ok (buildFilterIn filter argIndex))
  else if strToLower filter.operator == "not in" then
    some (Except.ok (buildFilterNotIn filter argIndex))
  else if strToLower filter.operator == "between" then
    buildFilterBetween filter argIndex
  else if strToLower filter.operator == "=" || strToLower filter.operator == "!=" ||
      strToLower filter.operator == "<>" then
    some (Except.ok (buildFilterEq filter argIndex))
  else if strToLower filter.operator == "is null" then
    some (Except.ok ([Frag.text (filter.column ++ " IS NULL")], [], argIndex))
  else if strToLower filter.operator == "is not null" then
    some (Except.ok ([Frag.text (filter.column ++ " IS NOT NULL")], [], argIndex))
  else if strToLower filter.operator == "<" || strToLower filter.operator == "<=" ||
      strToLower filter.operator == ">" || strToLower filter.operator == ">=" then
    some (buildFilterCmp filter argIndex)
  else if strToLower filter.operator == "like" || strToLower filter.operator == "ilike" ||
      strToLower filter.operator == "not like" || strToLower filter.operator == "not ilike" then
    some (Except.ok (buildFilterBind filter argIndex))
  else
    some (Except.ok (buildFilterBind filter argIndex))

/-- The WHERE loop: each filter after the first is preceded by `" AND "`;
errors and crashes abort the fold exactly as the Go `return` statements do. -/
def buildFiltersAux : List FilterConfig → Nat → Bool → Option (Except String (List Frag × List GoValue × Nat))
  | [], argIndex, _ => some (Except.ok ([], [], argIndex))
  | f :: rest, argIndex, isFirst =>
    match buildFilter f argIndex with
    | none => none
    | some (Except.error e) => some (Except.error e)
    | some (Except.ok (frags, args, idx2)) =>
      match buildFiltersAux rest idx2 false with
      | none => none
      | some (Except.error e) => some (Except.error e)
      | some (Except.ok (frags2, args2, idx3)) =>
        some (Except.ok ((if isFirst then frags else Frag.text (" AND ") :: frags) ++ frags2,
          args ++ args2, idx3))

/-- The WHERE clause: emitted only when the filter list is non-empty. -/
def buildWhere (filters : List FilterConfig) : Option (Except String (List Frag × List GoValue)) :=
  if filters.length > 0 then
    match buildFiltersAux filters 1 true with
    | none => none
    | some (Except.error e) => some (Except.error e)
    | some (Except.ok (frags, args, _)) => some (Except.ok (Frag.text (" WHERE ") :: frags, args))
  else some (Except.ok ([], []))

/-- The x-axis SELECT term of Go `BuildChartQuery`. -/
def axisSelectX (a : AxisConfig) : String :=
  if a.aggregation != "" then a.aggregation ++ "(" ++ a.column ++ ") as x_value"
  else a.column ++ " as x_value"

/-- One y-axis SELECT term (preceded by `", "`, named positionally). -/
def axisSelectY (i : Nat) (a : AxisConfig) : String :=
  if a.aggregation != "" then ", " ++ a.aggregation ++ "(" ++ a.column ++ ") as y_value_" ++ toString i
  else ", " ++ a.column ++ " as y_value_" ++ toString i

def selectClause (config : ChartConfig) : String :=
  "SELECT " ++ axisSelectX config.xAxis ++
    String.join (config.yAxis.enum.map (fun p => axisSelectY p.1 p.2))

/-- The FROM clause, built from the first table. -/
def fromClause (t : TableConfig) : String :=
  " FROM " ++ t.name ++ (if t.aliasName != "" then " " ++ t.aliasName else "")

/-- One JOIN clause. -/
def joinClause (j : JoinConfig) : String :=
  " " ++ j.typ ++ " JOIN " ++ j.table ++ (if j.aliasName != "" then " " ++ j.aliasName else "") ++
    " ON " ++ j.condition

/-- The JOIN section: Go `BuildChartQuery` ranges over every table in
`config.Tables` and emits every join of every table, in order. -/
def joinsClause (tables : List TableConfig) : String :=
  String.join (tables.map (fun t => String.join (t.joins.map joinClause)))

def groupByClause (groupBy : List String) : String :=
  if groupBy.length > 0 then " GROUP BY " ++ String.intercalate (", ") groupBy else ""

def orderByClause (orderBy : List OrderConfig) : String :=
  if orderBy.length > 0 then
    " ORDER BY " ++ String.intercalate (", ") (orderBy.map (fun o => o.column ++ " " ++ o.direction))
  else ""

def limitClause (limit : Int) : String :=
  if limit > 0 then " LIMIT " ++ toString limit else ""

/-- The result of Go `BuildChartQuery`'s three return values: the SQL text
(as fragments), the bound arguments, and the error slot (`("", nil, err)`
is modelled as empty fragments and arguments with `err` set). -/
structure BuildOutput where
  frags : List Frag
  args : List GoValue
  err : Option String
deriving DecidableEq, Repr

/-- The SQL string a `BuildOutput` denotes. -/
def BuildOutput.sql (o : BuildOutput) : String := renderFrags o.frags

/-- Go `BuildChartQuery`.  `none` models the crash on `config.Tables[0]`
for an empty table list or on `filter.Values[0/1]` in the BETWEEN branch;
all other paths return the SQL fragments, arguments and error slot. -/
def BuildChartQuery (config : ChartConfig) : Option BuildOutput :=
  match config.tables[0]? with
  | none => none
  | some t0 =>
    match buildWhere config.filters with
    | none => none
    | some (Except.error e) => some { frags := [], args := [], err := some e }
    | some (Except.ok (whereFrags, args)) =>
      let head := Frag.text (selectClause config ++ fromClause t0 ++ joinsClause config.tables)
      let tail := Frag.text (groupByClause config.groupBy ++ orderByClause config.orderBy ++
        limitClause config.limit)
      some { frags := head :: whereFrags ++ [tail], args := args, err := none }

/-- Go `ToSql`: validation/normalization composed with the builder. -/
def ToSql (c : ChartConfig) : Option BuildOutput :=
  match ValidateAndNormalizeConfig c with
  | Except.error e => some { frags := [], args := [], err := some e }
  | Except.ok c2 => BuildChartQuery c2

/-! ## General lemmas: placeholder bookkeeping

The WHERE construction threads a single argument counter.  The lemmas
below show, per operator branch and then along the filter fold, that the
placeholder numbers emitted are exactly the contiguous range starting at
the incoming counter value, one per appended argument, and that the
counter advances by exactly the number of appended arguments.
-/

theorem placeholdersOf_append (a b : List Frag) :
    placeholdersOf (a ++ b) = placeholdersOf a ++ placeholdersOf b := by
  induction a with
  | nil => rfl
  | cons f rest ih => cases f <;> simp [placeholdersOf, ih]

theorem placeholdersOf_phFragsTail (n start : Nat) :
    placeholdersOf (phFragsTail start n) = List.range' start n := by
  induction n generalizing start with
  | zero => rfl
  | succ m ih => simp [phFragsTail, placeholdersOf, List.range'_succ, ih]

theorem placeholdersOf_phFrags (start n : Nat) :
    placeholdersOf (phFrags start n) = List.range' start n := by
  cases n with
  | zero => rfl
  | succ m => simp [phFrags, placeholdersOf, List.range'_succ, placeholdersOf_phFragsTail]

theorem buildFilterIn_spec (f : FilterConfig) (idx : Nat) :
    placeholdersOf (buildFilterIn f idx).1 = List.range' idx (buildFilterIn f idx).2.1.length ∧
      (buildFilterIn f idx).2.2 = idx + (buildFilterIn f idx).2.1.length := by
  unfold buildFilterIn
  split_ifs <;>
    simp [placeholdersOf_append, placeholdersOf_phFrags, placeholdersOf, List.range'_succ]

theorem buildFilterNotIn_spec (f : FilterConfig) (idx : Nat) :
    placeholdersOf (buildFilterNotIn f idx).1 = List.range' idx (buildFilterNotIn f idx).2.1.length ∧
      (buildFilterNotIn f idx).2.2 = idx + (buildFilterNotIn f idx).2.1.length := by
  unfold buildFilterNotIn
  split_ifs <;>
    simp [placeholdersOf_append, placeholdersOf_phFrags, placeholdersOf, List.range'_succ]

theorem buildFilterEq_spec (f : FilterConfig) (idx : Nat) :
    placeholdersOf (buildFilterEq f idx).1 = List.range' idx (buildFilterEq f idx).2.1.length ∧
      (buildFilterEq f idx).2.2 = idx + (buildFilterEq f idx).2.1.length := by
  unfold buildFilterEq
  cases f.value <;> (repeat' split) <;>
    simp [placeholdersOf_append, placeholdersOf_phFrags, placeholdersOf, List.range'_succ]

theorem buildFilterBind_spec (f : FilterConfig) (idx : Nat) :
    placeholdersOf (buildFilterBind f idx).1 = List.range' idx (buildFilterBind f idx).2.1.length ∧
      (buildFilterBind f idx).2.2 = idx + (buildFilterBind f idx).2.1.length := by
  unfold buildFilterBind
  split_ifs <;>
    simp [placeholdersOf_append, placeholdersOf_phFrags, placeholdersOf, List.range'_succ]

theorem buildFilterBetween_ok_spec (f : FilterConfig) (idx : Nat) (frags : List Frag)
    (args : List GoValue) (idx2 : Nat)
    (h : buildFilterBetween f idx = some (Except.ok (frags, args, idx2))) :
    placeholdersOf frags = List.range' idx args.length ∧ idx2 = idx + args.length := by
  unfold buildFilterBetween at h
  repeat' split at h
  all_goals (try simp at h)
  all_goals obtain ⟨hf, ha, hi⟩ := h
  all_goals subst hf
  all_goals subst ha
  all_goals subst hi
  all_goals exact ⟨rfl, rfl⟩

theorem buildFilterCmp_ok_spec (f : FilterConfig) (idx : Nat) (frags : List Frag)
    (args : List GoValue) (idx2 : Nat)
    (h : buildFilterCmp f idx = Except.ok (frags, args, idx2)) :
    placeholdersOf frags = List.range' idx args.length ∧ idx2 = idx + args.length := by
  unfold buildFilterCmp at h
  split at h
  all_goals (try simp at h)
  all_goals obtain ⟨hf, ha, hi⟩ := h
  all_goals subst hf
  all_goals subst ha
  all_goals subst hi
  all_goals exact ⟨rfl, rfl⟩

theorem buildFilter_ok_spec (f : FilterConfig) (idx : Nat) (frags : List Frag)
    (args : List GoValue) (idx2 : Nat)
    (h : buildFilter f idx = some (Except.ok (frags, args, idx2))) :
    placeholdersOf frags = List.range' idx args.length ∧ idx2 = idx + args.length := by
  unfold buildFilter at h
  repeat' split at h
  all_goals first
    | exact buildFilterBetween_ok_spec f idx frags args idx2 h
    | (simp only [Option.some.injEq] at h
       exact buildFilterCmp_ok_spec f idx frags args idx2 h)
    | (simp only [Option.some.injEq, Except.ok.injEq] at h
       first
       | (have hs := buildFilterIn_spec f idx
          rw [h] at hs
          simpa using hs)
       | (have hs := buildFilterNotIn_spec f idx
          rw [h] at hs
          simpa using hs)
       | (have hs := buildFilterEq_spec f idx
          rw [h] at hs
          simpa using hs)
       | (have hs := buildFilterBind_spec f idx
          rw [h] at hs
          simpa using hs)
       | (simp only [Prod.mk.injEq] at h
          obtain ⟨hf, ha, hi⟩ := h
          subst hf
          subst ha
          subst hi
          exact ⟨rfl, rfl⟩))

theorem buildFiltersAux_ok_spec (fs : List FilterConfig) :
    ∀ (idx : Nat) (isFirst : Bool) (frags : List Frag) (args : List GoValue) (idx2 : Nat),
    buildFiltersAux fs idx isFirst = some (Except.ok (frags, args, idx2)) →
    placeholdersOf frags = List.range' idx args.length ∧ idx2 = idx + args.length := by
  induction fs with
  | nil =>
    intro idx isFirst frags args idx2 h
    simp only [buildFiltersAux, Option.some.injEq, Except.ok.injEq, Prod.mk.injEq] at h
    obtain ⟨hf, ha, hi⟩ := h
    subst hf
    subst ha
    subst hi
    exact ⟨rfl, rfl⟩
  | cons f rest ih =>
    intro idx isFirst frags args idx2 h
    unfold buildFiltersAux at h
    split at h
    · exact absurd h (by simp)
    · exact absurd h (by simp)
    case h_3 fr1 ar1 i2 heq1 =>
      split at h
      · exact absurd h (by simp)
      · exact absurd h (by simp)
      case h_3 fr2 ar2 i3 heq2 =>
        simp only [Option.some.injEq, Except.ok.injEq, Prod.mk.injEq] at h
        obtain ⟨hf, ha, hi⟩ := h
        subst hf
        subst ha
        subst hi
        obtain ⟨p1, q1⟩ := buildFilter_ok_spec f idx fr1 ar1 i2 heq1
        obtain ⟨p2, q2⟩ := ih i2 false fr2 ar2 i3 heq2
        subst q1
        subst q2
        constructor
        · cases isFirst <;>
            simp [placeholdersOf_append, placeholdersOf, p1, p2, List.length_append] <;>
            omega
        · simp [List.length_append]
          omega

theorem buildWhere_ok_spec (filters : List FilterConfig) (wfr : List Frag) (args : List GoValue)
    (h : buildWhere filters = some (Except.ok (wfr, args))) :
    placeholdersOf wfr = List.range' 1 args.length := by
  unfold buildWhere at h
  split at h
  · split at h
    · exact absurd h (by simp)
    · exact absurd h (by simp)
    case h_3 fr ar i heq =>
      simp only [Option.some.injEq, Except.ok.injEq, Prod.mk.injEq] at h
      obtain ⟨hf, ha⟩ := h
      subst hf
      subst ha
      simpa [placeholdersOf] using (buildFiltersAux_ok_spec filters 1 true fr ar i heq).1
  · simp only [Option.some.injEq, Except.ok.injEq, Prod.mk.injEq] at h
    obtain ⟨hf, ha⟩ := h
    subst hf
    subst ha
    rfl

theorem BuildChartQuery_placeholders (config : ChartConfig) (o : BuildOutput)
    (h : BuildChartQuery config = some o) :
    placeholdersOf o.frags = List.range' 1 o.args.length := by
  unfold BuildChartQuery at h
  split at h
  · exact absurd h (by simp)
  · split at h
    · exact absurd h (by simp)
    · simp only [Option.some.injEq] at h
      subst h
      rfl
    case h_3 wfr args heq =>
      simp only [Option.some.injEq] at h
      subst h
      simpa [placeholdersOf, placeholdersOf_append] using buildWhere_ok_spec config.filters wfr args heq


/-! ## Failure characterization of the builder

`filterBuildFails` transcribes the spec's two build-error conditions:
a BETWEEN filter with a NULL bound, or an ordered comparison with a
NULL value.  The builder returns its error slot exactly on these.
-/

/-- The two build-time failure conditions of the spec (BETWEEN with a NULL
bound among its first two values; ordered comparison with a NULL value). -/
def filterBuildFails (f : FilterConfig) : Bool :=
  (strToLower f.operator == "between" &&
    (f.values[0]? == some GoValue.nil || f.values[1]? == some GoValue.nil)) ||
  ((strToLower f.operator == "<" || strToLower f.operator == "<=" ||
    strToLower f.operator == ">" || strToLower f.operator == ">=") &&
    f.value == GoValue.nil)

theorem buildFilter_error_fails (f : FilterConfig) (idx : Nat) (e : String)
    (h : buildFilter f idx = some (Except.error e)) : filterBuildFails f = true := by
  unfold buildFilter at h
  repeat' split at h
  all_goals first
    | exact Option.noConfusion h
    | (injection h with h2; exact Except.noConfusion h2)
    | (unfold buildFilterBetween at h
       repeat' split at h
       all_goals first
         | exact Option.noConfusion h
         | (injection h with h2; exact Except.noConfusion h2)
         | (simp_all [filterBuildFails]; done))
    | (unfold buildFilterCmp at h
       split at h
       all_goals first
         | (injection h with h2; exact Except.noConfusion h2)
         | (simp_all [filterBuildFails]; done))

theorem buildFilter_ok_not_fails (f : FilterConfig) (idx : Nat)
    (r : List Frag × List GoValue × Nat)
    (h : buildFilter f idx = some (Except.ok r)) : filterBuildFails f = false := by
  unfold buildFilter at h
  repeat' split at h
  all_goals first
    | exact Option.noConfusion h
    | (injection h with h2; exact Except.noConfusion h2)
    | (unfold buildFilterBetween at h
       repeat' split at h
       all_goals first
         | exact Option.noConfusion h
         | (injection h with h2; exact Except.noConfusion h2)
         | (simp_all [filterBuildFails]; done))
    | (unfold buildFilterCmp at h
       split at h
       all_goals first
         | (injection h with h2; exact Except.noConfusion h2)
         | (simp_all [filterBuildFails]; done))
    | (simp_all [filterBuildFails]; done)
    | (simp_all [filterBuildFails]
       intro hlt
       rcases hlt with ((h1 | h1) | h1) | h1 <;> simp_all)

theorem buildFiltersAux_error_iff (fs : List FilterConfig) :
    ∀ (idx : Nat) (isFirst : Bool) (r : Except String (List Frag × List GoValue × Nat)),
    buildFiltersAux fs idx isFirst = some r →
    ((∃ e, r = Except.error e) ↔ fs.any filterBuildFails = true) := by
  induction fs with
  | nil =>
    intro idx isFirst r h
    simp only [buildFiltersAux, Option.some.injEq] at h
    subst h
    simp
  | cons f rest ih =>
    intro idx isFirst r h
    unfold buildFiltersAux at h
    split at h
    · exact Option.noConfusion h
    case h_2 e heq =>
      simp only [Option.some.injEq] at h
      subst h
      simp [buildFilter_error_fails f idx e heq]
    case h_3 fr1 ar1 i2 heq1 =>
      have hff := buildFilter_ok_not_fails f idx (fr1, ar1, i2) heq1
      split at h
      · exact Option.noConfusion h
      case h_2 e heq2 =>
        simp only [Option.some.injEq] at h
        subst h
        have := (ih i2 false (Except.error e) heq2).mp ⟨e, rfl⟩
        simp [List.any_cons, hff, this]
      case h_3 fr2 ar2 i3 heq2 =>
        simp only [Option.some.injEq] at h
        subst h
        have := ih i2 false (Except.ok (fr2, ar2, i3)) heq2
        simp only [List.any_cons, hff, Bool.false_or]
        rw [← this]
        simp

theorem buildWhere_error_iff (filters : List FilterConfig)
    (r : Except String (List Frag × List GoValue)) (h : buildWhere filters = some r) :
    (∃ e, r = Except.error e) ↔ filters.any filterBuildFails = true := by
  unfold buildWhere at h
  split at h
  · split at h
    · exact Option.noConfusion h
    case h_2 e heq =>
      simp only [Option.some.injEq] at h
      subst h
      have := (buildFiltersAux_error_iff filters 1 true (Except.error e) heq).mp ⟨e, rfl⟩
      simp [this]
    case h_3 fr ar i heq =>
      simp only [Option.some.injEq] at h
      subst h
      have := buildFiltersAux_error_iff filters 1 true (Except.ok (fr, ar, i)) heq
      constructor
      · rintro ⟨e, he⟩
        exact Except.noConfusion he
      · intro hc
        exact absurd (this.mpr hc) (by simp)
  case isFalse hlen =>
    simp only [Option.some.injEq] at h
    subst h
    have hnil : filters = [] := by
      cases hf : filters with
      | nil => rfl
      | cons a b => rw [hf] at hlen; simp at hlen
    constructor
    · rintro ⟨e, he⟩
      exact Except.noConfusion he
    · intro hc
      rw [hnil] at hc
      simp at hc

theorem BuildChartQuery_err_iff (config : ChartConfig) (o : BuildOutput)
    (h : BuildChartQuery config = some o) :
    (o.err.isSome = true ↔ config.filters.any filterBuildFails = true) ∧
      (o.err.isSome = true → o.frags = [] ∧ o.args = []) := by
  unfold BuildChartQuery at h
  split at h
  · exact Option.noConfusion h
  · split at h
    · exact Option.noConfusion h
    case h_2 e heq =>
      simp only [Option.some.injEq] at h
      subst h
      have := (buildWhere_error_iff config.filters (Except.error e) heq).mp ⟨e, rfl⟩
      simp [this]
    case h_3 wfr ar heq =>
      simp only [Option.some.injEq] at h
      subst h
      have := buildWhere_error_iff config.filters (Except.ok (wfr, ar)) heq
      constructor
      · simp only [Option.isSome_none, Bool.false_eq_true, false_iff]
        intro hc
        exact absurd (this.mpr hc) (by simp)
      · simp

/-! ## Validator consequences used for totality

For a configuration accepted by the validator in which no filter uses the
raw escape hatch, every BETWEEN filter has exactly two values, so the
builder's bound lookups stay in range and the build returns a result.
-/

theorem contains_iff_mem (l : List String) (s : String) : contains l s = true ↔ s ∈ l := by
  simp only [contains, List.any_eq_true, beq_iff_eq]
  exact ⟨fun ⟨x, hx, he⟩ => he ▸ hx, fun h => ⟨s, h, rfl⟩⟩

theorem validOperators_between (s : String) (hs : s ∈ validOperators)
    (hb : strToLower s = "between") : s = "BETWEEN" := by
  fin_cases hs <;> first | rfl | exact absurd hb (by decide)

theorem validateFilter_ok_between (f : FilterConfig) (i : Nat) (hraw : f.raw = "")
    (hok : validateFilter f i = Except.ok ())
    (hbet : strToLower f.operator = "between") : f.values.length = 2 := by
  unfold validateFilter at hok
  rw [hraw] at hok
  simp only [bne_self_eq_false, Bool.false_eq_true, if_false] at hok
  split at hok
  · exact Except.noConfusion hok
  split at hok
  · exact Except.noConfusion hok
  split at hok
  · exact Except.noConfusion hok
  rename_i hcontains
  have hc : contains validOperators f.operator = true := by simpa using hcontains
  have hBET : f.operator = "BETWEEN" :=
    validOperators_between _ ((contains_iff_mem _ _).mp hc) hbet
  rw [hBET] at hok
  split at hok
  · rename_i hIN
    exact absurd hIN (by decide)
  split at hok
  · split at hok
    · exact Except.noConfusion hok
    · rename_i hlen
      simpa using hlen
  · rename_i hB
    exact absurd (by decide : (("BETWEEN" : String) == "BETWEEN") = true) hB

theorem buildFilter_isSome (f : FilterConfig) (idx : Nat)
    (hb : strToLower f.operator = "between" → f.values.length = 2) :
    (buildFilter f idx).isSome = true := by
  unfold buildFilter
  repeat' split
  all_goals try rfl
  rename_i hbet
  have h2 := hb (by simpa using hbet)
  obtain ⟨a, b, hab⟩ := List.length_eq_two.mp h2
  unfold buildFilterBetween
  rw [hab]
  simp only [List.getElem?_cons_zero, List.getElem?_cons_succ]
  split_ifs <;> simp

theorem buildFiltersAux_isSome (fs : List FilterConfig)
    (hall : ∀ f ∈ fs, ∀ idx, (buildFilter f idx).isSome = true) :
    ∀ (idx : Nat) (isFirst : Bool), (buildFiltersAux fs idx isFirst).isSome = true := by
  induction fs with
  | nil => intro idx isFirst; rfl
  | cons f rest ih =>
    intro idx isFirst
    have h1 := hall f (by simp) idx
    unfold buildFiltersAux
    split
    case h_1 heq => rw [heq] at h1; simp at h1
    case h_2 => simp
    case h_3 fr ar i2 heq =>
      have h2 := ih (fun g hg idx2 => hall g (List.mem_cons_of_mem f hg) idx2) i2 false
      split
      case h_1 heq2 => rw [heq2] at h2; simp at h2
      case h_2 => simp
      case h_3 => simp

theorem validateFilters_ok (fs : List FilterConfig) :
    ∀ i, validateFilters fs i = Except.ok () → ∀ f ∈ fs, ∃ j, validateFilter f j = Except.ok () := by
  induction fs with
  | nil =>
    intro i h f hf
    simp at hf
  | cons g rest ih =>
    intro i h f hf
    unfold validateFilters at h
    split at h
    · exact Except.noConfusion h
    case h_2 heq =>
      rcases List.mem_cons.mp hf with rfl | hf2
      · exact ⟨i, heq⟩
      · exact ih (i + 1) h f hf2

theorem validateChartConfig_ok_parts (c : ChartConfig)
    (h : validateChartConfig c = Except.ok ()) :
    c.tables.length ≠ 0 ∧ validateFilters c.filters 0 = Except.ok () := by
  unfold validateChartConfig at h
  split at h
  · exact Except.noConfusion h
  split at h
  · exact Except.noConfusion h
  split at h
  · exact Except.noConfusion h
  split at h
  · exact Except.noConfusion h
  split at h
  · exact Except.noConfusion h
  split at h
  · exact Except.noConfusion h
  split at h
  · exact Except.noConfusion h
  split at h
  · exact Except.noConfusion h
  refine ⟨?_, h⟩
  simp_all

theorem ValidateAndNormalizeConfig_ok (c c2 : ChartConfig)
    (h : ValidateAndNormalizeConfig c = Except.ok c2) :
    validateChartConfig c = Except.ok () ∧ c2 = normalizeConfig c := by
  unfold ValidateAndNormalizeConfig at h
  split at h
  · exact Except.noConfusion h
  case h_2 u heq =>
    simp only [Except.ok.injEq] at h
    exact ⟨heq, h.symm⟩

theorem buildSucceedsOnValidatedNoRaw (c c2 : ChartConfig)
    (hval : ValidateAndNormalizeConfig c = Except.ok c2)
    (hraw : ∀ f ∈ c.filters, f.raw = "") :
    (BuildChartQuery c2).isSome = true := by
  obtain ⟨hok, rfl⟩ := ValidateAndNormalizeConfig_ok c c2 hval
  obtain ⟨hlen, hfs⟩ := validateChartConfig_ok_parts c hok
  have hw : (buildWhere (normalizeConfig c).filters).isSome = true := by
    have hfilters : (normalizeConfig c).filters = c.filters := rfl
    rw [hfilters]
    unfold buildWhere
    split
    · have haux := buildFiltersAux_isSome c.filters
        (fun f hf idx => buildFilter_isSome f idx
          (fun hbet =>
            have ⟨j, hj⟩ := validateFilters_ok c.filters 0 hfs f hf
            validateFilter_ok_between f j (hraw f hf) hj hbet)) 1 true
      split
      case h_1 heq2 => rw [heq2] at haux; simp at haux
      case h_2 => simp
      case h_3 => simp
    · rfl
  unfold BuildChartQuery
  split
  case h_1 heq =>
    exfalso
    have hnone := List.getElem?_eq_none_iff.mp heq
    have hmap : (normalizeConfig c).tables.length = c.tables.length := by
      simp [normalizeConfig]
    omega
  case h_2 t0 heq =>
    split
    case h_1 heq2 => rw [heq2] at hw; simp at hw
    case h_2 => simp
    case h_3 => simp

/-! ## String-level readings of the per-operator expansions

`specEqExpansion` and `specNotInExpansion` state, as plain strings and
argument lists, what the spec's expansion table prescribes for the
`=`-family and for `NOT IN`; the theorems connect them to the builder.
-/

theorem renderFrags_append (a b : List Frag) :
    renderFrags (a ++ b) = renderFrags a ++ renderFrags b := by
  induction a with
  | nil => simp [renderFrags]
  | cons f rest ih => simp [renderFrags, ih, String.append_assoc]

def phListTextTail (start : Nat) : Nat → String
  | 0 => ""
  | n + 1 => ", $" ++ toString start ++ phListTextTail (start + 1) n

/-- The text of `cnt` comma-separated placeholders starting at `$start`,
as in the spec's `($n,…)` notation. -/
def phListText (start : Nat) : Nat → String
  | 0 => ""
  | n + 1 => "$" ++ toString start ++ phListTextTail (start + 1) n

theorem renderFrags_phFragsTail (n start : Nat) :
    renderFrags (phFragsTail start n) = phListTextTail start n := by
  induction n generalizing start with
  | zero => rfl
  | succ m ih =>
    simp only [phFragsTail, phListTextTail, renderFrags, Frag.render, ih, String.append_assoc]
    rw [← String.append_assoc]
    rfl

theorem renderFrags_phFrags (start n : Nat) :
    renderFrags (phFrags start n) = phListText start n := by
  cases n with
  | zero => rfl
  | succ m => simp [phFrags, phListText, renderFrags, Frag.render, renderFrags_phFragsTail, String.append_assoc]


def specEqExpansion (f : FilterConfig) (idx : Nat) : String × List GoValue × Nat :=
  match f.value with
  | GoValue.nil =>
    if strToLower f.operator == "=" then (f.column ++ " IS NULL", [], idx)
    else (f.column ++ " IS NOT NULL", [], idx)
  | GoValue.str s =>
    if strToLower s == "true" || strToLower s == "false" then
      if strToLower f.operator == "=" then
        if strToLower s == "true" then (f.column ++ " IS TRUE", [], idx)
        else (f.column ++ " IS FALSE", [], idx)
      else
        if strToLower s == "true" then (f.column ++ " IS NOT TRUE", [], idx)
        else (f.column ++ " IS NOT FALSE", [], idx)
    else
      (f.column ++ " " ++ f.operator ++ " " ++ ("$" ++ toString idx), [GoValue.str s], idx + 1)
  | GoValue.boolean b =>
    if strToLower f.operator == "=" then
      if b then (f.column ++ " IS TRUE", [], idx)
      else (f.column ++ " IS FALSE", [], idx)
    else
      if b then (f.column ++ " IS NOT TRUE", [], idx)
      else (f.column ++ " IS NOT FALSE", [], idx)
  | GoValue.num n =>
    (f.column ++ " " ++ f.operator ++ " " ++ ("$" ++ toString idx), [GoValue.num n], idx + 1)

theorem buildFilterEqFamilyExpansion (f : FilterConfig) (idx : Nat)
    (hop : strToLower f.operator = "=" ∨ strToLower f.operator = "!=" ∨
      strToLower f.operator = "<>") :
    (buildFilter f idx).map (Except.map (fun r => (renderFrags r.1, r.2.1, r.2.2))) =
      some (Except.ok (specEqExpansion f idx)) := by
  unfold buildFilter
  rw [if_neg (by rcases hop with h | h | h <;> simp [h]),
    if_neg (by rcases hop with h | h | h <;> simp [h]),
    if_neg (by rcases hop with h | h | h <;> simp [h]),
    if_pos (by rcases hop with h | h | h <;> simp [h])]
  simp only [Option.map_some', Except.map]
  unfold buildFilterEq specEqExpansion
  cases f.value <;> (repeat' split) <;>
    simp [renderFrags, Frag.render, String.append_assoc]

def specNotInExpansion (col : String) (values : List GoValue) (idx : Nat) :
    String × List GoValue × Nat :=
  if nullCount values > 0 && (nonNullValues values).length > 0 then
    ("(" ++ col ++ " NOT IN (" ++ (phListText idx (nonNullValues values).length ++
      (") AND " ++ col ++ " IS NOT NULL)")), nonNullValues values,
      idx + (nonNullValues values).length)
  else if nullCount values > 0 then
    (col ++ " IS NOT NULL", [], idx)
  else
    ("(" ++ col ++ " NOT IN (" ++ (phListText idx (nonNullValues values).length ++
      (") OR " ++ col ++ " IS NULL)")), nonNullValues values,
      idx + (nonNullValues values).length)

theorem buildFilterNotInExpansion (f : FilterConfig) (idx : Nat) (hop : strToLower f.operator = "not in") :
    (buildFilter f idx).map (Except.map (fun r => (renderFrags r.1, r.2.1, r.2.2))) =
      some (Except.ok (specNotInExpansion f.column f.values idx)) := by
  unfold buildFilter
  rw [if_neg (by simp [hop]), if_pos (by simp [hop])]
  simp only [Option.map_some', Except.map]
  unfold buildFilterNotIn specNotInExpansion
  split_ifs <;>
    simp [renderFrags_append, renderFrags_phFrags, renderFrags, Frag.render, String.append_assoc]

/-! ## Validator acceptance, failure order, chart-kind handling, join section -/

def specFilterRequirement (f : FilterConfig) : Bool :=
  if f.operator == "IN" then !f.values.isEmpty
  else if f.operator == "BETWEEN" then f.values.length == 2
  else if f.operator == "IS" then true
  else !(f.value == GoValue.nil) || !f.values.isEmpty

theorem validateFilterAcceptance (f : FilterConfig) (i : Nat) (hraw : f.raw = "")
    (hcol : f.column ≠ "") (hop : f.operator ≠ "") :
    validateFilter f i = Except.ok () ↔
      (f.operator ∈ validOperators ∧ specFilterRequirement f = true) := by
  unfold validateFilter
  rw [hraw]
  simp only [bne_self_eq_false, Bool.false_eq_true, if_false]
  rw [if_neg (by simp [hcol]), if_neg (by simp [hop])]
  split_ifs with h1 h2 h3 h4 h5 h6 h7 <;>
    simp_all [specFilterRequirement, ← contains_iff_mem] <;> tauto

theorem validateChartConfig_ok_kind (c : ChartConfig)
    (h : validateChartConfig c = Except.ok ()) :
    contains validChartTypes c.chartType = true := by
  unfold validateChartConfig at h
  split at h
  · exact Except.noConfusion h
  split at h
  · exact Except.noConfusion h
  split at h
  · exact Except.noConfusion h
  split at h
  · exact Except.noConfusion h
  split at h
  · exact Except.noConfusion h
  rename_i hk
  simpa using hk

theorem validateOrderSpec :
    (∀ c : ChartConfig, c.chartType = "" →
      validateChartConfig c = Except.error ("chart_type is required")) ∧
    (∀ c : ChartConfig, c.chartType ≠ "" → c.title = "" →
      validateChartConfig c = Except.error ("title is required")) ∧
    (∀ c : ChartConfig, c.chartType ≠ "" → c.title ≠ "" → c.tables.length = 0 →
      validateChartConfig c = Except.error ("at least one table is required")) ∧
    (∀ c : ChartConfig, c.chartType ≠ "" → c.title ≠ "" → c.tables.length ≠ 0 →
      c.yAxis.length = 0 →
      validateChartConfig c = Except.error ("at least one y-axis is required")) ∧
    (∀ c : ChartConfig, c.chartType ≠ "" → c.title ≠ "" → c.tables.length ≠ 0 →
      c.yAxis.length ≠ 0 → contains validChartTypes c.chartType = false →
      validateChartConfig c = Except.error ("invalid chart_type: " ++ c.chartType ++
        ". Must be one of: " ++ String.intercalate (", ") validChartTypes)) ∧
    (∀ (c : ChartConfig) (e : String), c.chartType ≠ "" → c.title ≠ "" →
      c.tables.length ≠ 0 → c.yAxis.length ≠ 0 →
      contains validChartTypes c.chartType = true →
      validateTables c.tables 0 = Except.error e →
      validateChartConfig c = Except.error e) ∧
    (∀ c : ChartConfig, c.chartType ≠ "" → c.title ≠ "" → c.tables.length ≠ 0 →
      c.yAxis.length ≠ 0 → contains validChartTypes c.chartType = true →
      validateTables c.tables 0 = Except.ok () → c.xAxis.column = "" →
      validateChartConfig c = Except.error ("x_axis column is required")) ∧
    (∀ (c : ChartConfig) (e : String), c.chartType ≠ "" → c.title ≠ "" →
      c.tables.length ≠ 0 → c.yAxis.length ≠ 0 →
      contains validChartTypes c.chartType = true →
      validateTables c.tables 0 = Except.ok () → c.xAxis.column ≠ "" →
      validateYAxes c.yAxis 0 = Except.error e →
      validateChartConfig c = Except.error e) ∧
    (∀ c : ChartConfig, c.chartType ≠ "" → c.title ≠ "" → c.tables.length ≠ 0 →
      c.yAxis.length ≠ 0 → contains validChartTypes c.chartType = true →
      validateTables c.tables 0 = Except.ok () → c.xAxis.column ≠ "" →
      validateYAxes c.yAxis 0 = Except.ok () →
      validateChartConfig c = validateFilters c.filters 0) := by
  refine ⟨?_, ?_, ?_, ?_, ?_, ?_, ?_, ?_, ?_⟩
  · intro c h1
    unfold validateChartConfig
    rw [if_pos (by simp [h1])]
  · intro c h1 h2
    unfold validateChartConfig
    rw [if_neg (by simp [h1]), if_pos (by simp [h2])]
  · intro c h1 h2 h3
    unfold validateChartConfig
    rw [if_neg (by simp [h1]), if_neg (by simp [h2]), if_pos (by simp [h3])]
  · intro c h1 h2 h3 h4
    unfold validateChartConfig
    rw [if_neg (by simp [h1]), if_neg (by simp [h2]), if_neg (by simp [h3]),
      if_pos (by simp [h4])]
  · intro c h1 h2 h3 h4 h5
    unfold validateChartConfig
    rw [if_neg (by simp [h1]), if_neg (by simp [h2]), if_neg (by simp [h3]),
      if_neg (by simp [h4]), if_pos (by simp [h5])]
  · intro c e h1 h2 h3 h4 h5 h6
    unfold validateChartConfig
    rw [if_neg (by simp [h1]), if_neg (by simp [h2]), if_neg (by simp [h3]),
      if_neg (by simp [h4]), if_neg (by simp [h5]), h6]
  · intro c h1 h2 h3 h4 h5 h6 h7
    unfold validateChartConfig
    rw [if_neg (by simp [h1]), if_neg (by simp [h2]), if_neg (by simp [h3]),
      if_neg (by simp [h4]), if_neg (by simp [h5]), h6]
    rw [if_pos (by simp [h7])]
  · intro c e h1 h2 h3 h4 h5 h6 h7 h8
    unfold validateChartConfig
    rw [if_neg (by simp [h1]), if_neg (by simp [h2]), if_neg (by simp [h3]),
      if_neg (by simp [h4]), if_neg (by simp [h5]), h6]
    rw [if_neg (by simp [h7]), h8]
  · intro c h1 h2 h3 h4 h5 h6 h7 h8
    unfold validateChartConfig
    rw [if_neg (by simp [h1]), if_neg (by simp [h2]), if_neg (by simp [h3]),
      if_neg (by simp [h4]), if_neg (by simp [h5]), h6]
    rw [if_neg (by simp [h7]), h8]

/-- The JOIN section as the amended claim reads: every table's joins,
tables in order, joins in list order within a table. -/
def specJoinSection (tables : List TableConfig) : String :=
  String.join (tables.map (fun t => String.join (t.joins.map (fun j =>
    " " ++ j.typ ++ " JOIN " ++ j.table ++
      (if j.aliasName != "" then " " ++ j.aliasName else "") ++ " ON " ++ j.condition))))

theorem buildSqlJoinDecomposition (config : ChartConfig) (t0 : TableConfig) (o : BuildOutput)
    (h0 : config.tables[0]? = some t0) (hb : BuildChartQuery config = some o)
    (he : o.err = none) :
    ∃ rest, o.sql = selectClause config ++
      (fromClause t0 ++ (specJoinSection config.tables ++ rest)) := by
  unfold BuildChartQuery at hb
  split at hb
  · exact Option.noConfusion hb
  case h_2 t0x heq =>
    have ht : t0x = t0 := by rw [heq] at h0; exact Option.some.inj h0
    subst ht
    split at hb
    · exact Option.noConfusion hb
    · simp only [Option.some.injEq] at hb
      subst hb
      simp at he
    case h_3 wfr ar heq2 =>
      simp only [Option.some.injEq] at hb
      subst hb
      refine ⟨renderFrags wfr ++ renderFrags [Frag.text (groupByClause config.groupBy ++
        orderByClause config.orderBy ++ limitClause config.limit)], ?_⟩
      have hjs : joinsClause config.tables = specJoinSection config.tables := by
        unfold joinsClause specJoinSection joinClause
        rfl
      simp [BuildOutput.sql, renderFrags, Frag.render, renderFrags_append,
        String.append_assoc, hjs]

theorem chartTypeCheckAndNormalize (c c2 : ChartConfig) (h : ValidateAndNormalizeConfig c = Except.ok c2) :
    c.chartType ∈ validChartTypes ∧ c2.chartType = strToLower c.chartType := by
  obtain ⟨hok, rfl⟩ := ValidateAndNormalizeConfig_ok c c2 h
  exact ⟨(contains_iff_mem _ _).mp (validateChartConfig_ok_kind c hok), rfl⟩

/-! ## The claims

Each claim of the specification review is settled by exactly one theorem
below (with a witness when the theorem carries hypotheses, and a closed
counterexample where the claim as stated fails on the code).
-/

/-- A validated configuration whose only join hangs off the second table. -/
def cfgC1 : ChartConfig :=
  { chartType := "line", title := "T",
    tables := [{ name := "t" },
      { name := "u", joins := [{ table := "v", typ := "LEFT", condition := "c" }] }],
    xAxis := { column := "x" }, yAxis := [{ column := "y" }] }

/-- Claim C1, counterexample: the claim says a JoinSpec attached to any
TableSpec other than the first is never emitted.  `cfgC1` passes
validation, its only JoinSpec sits on the second TableSpec, and the build
emits ` LEFT JOIN v ON c` — the builder ranges over every table's joins,
not only the first table's. -/
theorem claim_C1_counterexample :
    validateChartConfig cfgC1 = Except.ok () ∧
      (BuildChartQuery cfgC1).map (fun o => (o.sql, o.args, o.err)) =
        some ("SELECT x as x_value, y as y_value_0 FROM t LEFT JOIN v ON c", [], none) :=
  ⟨rfl, by decide⟩

/-- Claim C1, amended: for every build that returns a result without error,
the JOIN clauses emitted are exactly the JoinSpecs of ALL TableSpecs — in
table order, and in list order within each table — placed between the FROM
clause and the rest of the statement. -/
theorem claim_C1_amended (config : ChartConfig) (t0 : TableConfig) (o : BuildOutput)
    (h0 : config.tables[0]? = some t0) (hb : BuildChartQuery config = some o)
    (he : o.err = none) :
    ∃ rest, o.sql = selectClause config ++
      (fromClause t0 ++ (specJoinSection config.tables ++ rest)) :=
  buildSqlJoinDecomposition config t0 o h0 hb he

def outC1 : BuildOutput :=
  (BuildChartQuery cfgC1).getD { frags := [], args := [], err := none }

/-- Witness for the amended C1 at `cfgC1`. -/
theorem claim_C1_amended_witness :
    ∃ rest, outC1.sql = selectClause cfgC1 ++
      (fromClause { name := "t" } ++ (specJoinSection cfgC1.tables ++ rest)) :=
  claim_C1_amended cfgC1 { name := "t" } outC1 (by decide) (by decide) (by decide)

/-- A validated configuration whose only filter is a raw override. -/
def cfgC2 : ChartConfig :=
  { chartType := "line", title := "T", tables := [{ name := "t" }],
    xAxis := { column := "x" }, yAxis := [{ column := "y" }],
    filters := [{ raw := "amount > $1", rawValues := [GoValue.num 100] }] }

/-- Claim C2, code bug: the filter type's own comments promise that a
non-empty `Raw` is used as-is with `RawValues` bound, and the validator
exempts raw filters from every structural check on that premise — but the
builder never consults `Raw` or `RawValues`.  The raw filter of `cfgC2`
falls through to the default operator branch with an empty column and a
nil value, emitting `" IS NULL"` and binding nothing, instead of emitting
`amount > $1` with argument 100. -/
theorem claim_C2_code_bug :
    validateChartConfig cfgC2 = Except.ok () ∧
      (BuildChartQuery cfgC2).map (fun o => (o.sql, o.args, o.err)) =
        some ("SELECT x as x_value, y as y_value_0 FROM t WHERE  IS NULL", [], none) :=
  ⟨rfl, by decide⟩

/-- A NOT IN filter with only non-NULL values. -/
def cfgC3a : ChartConfig :=
  { chartType := "line", title := "T", tables := [{ name := "t" }],
    xAxis := { column := "x" }, yAxis := [{ column := "y" }],
    filters := [{ column := "s", operator := "NOT IN", values := [GoValue.num 1, GoValue.num 2] }] }

/-- A NOT IN filter with mixed NULL / non-NULL values. -/
def cfgC3b : ChartConfig :=
  { chartType := "line", title := "T", tables := [{ name := "t" }],
    xAxis := { column := "x" }, yAxis := [{ column := "y" }],
    filters := [{ column := "m", operator := "NOT IN", values := [GoValue.num 1, GoValue.nil] }] }

/-- Claim C3, counterexample: the claim's table says all-non-NULL `NOT IN`
emits bare `col NOT IN ($n,…)` and the mixed case emits
`(col NOT IN ($n,…) OR col IS NULL)`.  The code does the opposite pairing:
all-non-NULL gets the `OR col IS NULL` wrapper and mixed gets
`AND col IS NOT NULL`. -/
theorem claim_C3_counterexample :
    (BuildChartQuery cfgC3a).map (fun o => (o.sql, o.args, o.err)) =
      some ("SELECT x as x_value, y as y_value_0 FROM t WHERE (s NOT IN ($1, $2) OR s IS NULL)",
        [GoValue.num 1, GoValue.num 2], none) ∧
    (BuildChartQuery cfgC3b).map (fun o => (o.sql, o.args, o.err)) =
      some ("SELECT x as x_value, y as y_value_0 FROM t WHERE (m NOT IN ($1) AND m IS NOT NULL)",
        [GoValue.num 1], none) :=
  ⟨by decide, by decide⟩

/-- Claim C3, amended: for every filter whose operator lower-cases to
`not in`, the WHERE expansion is: all values non-NULL (or no values) —
`(col NOT IN ($n,…) OR col IS NULL)` with each value bound; all values
NULL — `col IS NOT NULL` with no placeholder; mixed —
`(col NOT IN ($n,…) AND col IS NOT NULL)` binding only the non-NULL
values, as `specNotInExpansion` states. -/
theorem claim_C3_amended (f : FilterConfig) (idx : Nat)
    (hop : strToLower f.operator = "not in") :
    (buildFilter f idx).map (Except.map (fun r => (renderFrags r.1, r.2.1, r.2.2))) =
      some (Except.ok (specNotInExpansion f.column f.values idx)) :=
  buildFilterNotInExpansion f idx hop

def fC3w : FilterConfig :=
  { column := "s", operator := "NOT IN", values := [GoValue.num 1, GoValue.nil] }

/-- Witness for the amended C3 at a mixed-values NOT IN filter. -/
theorem claim_C3_amended_witness :
    (buildFilter fC3w 1).map (Except.map (fun r => (renderFrags r.1, r.2.1, r.2.2))) =
      some (Except.ok (specNotInExpansion fC3w.column fC3w.values 1)) :=
  claim_C3_amended fC3w 1 (by decide)

/-- Claim C4: for every validated ChartSpec on which build succeeds, the
placeholder numbers occurring in the emitted SQL are exactly `1..len(args)`
in emission order (so the k-th placeholder is `$k` and pairs with the k-th
argument, counts agree, and zero-placeholder operators leave the shared
counter unchanged), for any mix of filters, joins and axes. -/
theorem claim_C4 (config : ChartConfig) (o : BuildOutput)
    (hval : validateChartConfig config = Except.ok ())
    (hbuild : BuildChartQuery config = some o) (hok : o.err = none) :
    placeholdersOf o.frags = List.range' 1 o.args.length ∧
      (placeholdersOf o.frags).length = o.args.length :=
  ⟨BuildChartQuery_placeholders config o hbuild, by
    rw [BuildChartQuery_placeholders config o hbuild]
    simp⟩

/-- A validated configuration exercising multi-placeholder, zero-placeholder
and two-placeholder operators in one WHERE clause. -/
def cfgW4 : ChartConfig :=
  { chartType := "line", title := "T", tables := [{ name := "t" }],
    xAxis := { column := "x" }, yAxis := [{ column := "y" }],
    filters := [
      { column := "s", operator := "IN", values := [GoValue.num 1, GoValue.nil, GoValue.num 2] },
      { column := "b", operator := "BETWEEN", values := [GoValue.num 1, GoValue.num 9] },
      { column := "d", operator := "IS", value := GoValue.nil },
      { column := "e", operator := "=", value := GoValue.str "ok" } ] }

def outW4 : BuildOutput :=
  (BuildChartQuery cfgW4).getD { frags := [], args := [], err := none }

/-- Witness for C4 at `cfgW4`. -/
theorem claim_C4_witness :
    placeholdersOf outW4.frags = List.range' 1 outW4.args.length ∧
      (placeholdersOf outW4.frags).length = outW4.args.length :=
  claim_C4 cfgW4 outW4 (by rfl) (by decide) (by decide)

def fC5 : FilterConfig :=
  { column := "s", operator := "NOT IN", values := [GoValue.num 1] }

/-- Claim C5, counterexample: the claim says a non-raw filter whose
operator is in the spec's allowed set (which lists `NOT IN`) with a
non-empty column and its required values present is not rejected.  The
validator's actual whitelist is `=, !=, >, <, >=, <=, IN, LIKE, BETWEEN,
IS`, matched case-sensitively, so this `NOT IN` filter is rejected. -/
theorem claim_C5_counterexample :
    validateFilter fC5 0 = Except.error ("invalid filter operator \x27NOT IN\x27 at index 0. Must be one of: =, !=, >, <, >=, <=, IN, LIKE, BETWEEN, IS") :=
  rfl

/-- Claim C5, amended: a non-raw filter with non-empty column and operator
passes `validateFilter` exactly when its operator is in the code's
whitelist `validOperators` (case-sensitively) and the operator-specific
requirement holds: `IN` needs a non-empty values list, `BETWEEN` exactly
two values, `IS` nothing, and every other operator a non-nil value or a
non-empty values list. -/
theorem claim_C5_amended (f : FilterConfig) (i : Nat) (hraw : f.raw = "")
    (hcol : f.column ≠ "") (hop : f.operator ≠ "") :
    validateFilter f i = Except.ok () ↔
      (f.operator ∈ validOperators ∧ specFilterRequirement f = true) :=
  validateFilterAcceptance f i hraw hcol hop

def fW5 : FilterConfig :=
  { column := "c", operator := "IN", values := [GoValue.num 1] }

/-- Witness for the amended C5 at an accepted IN filter. -/
theorem claim_C5_amended_witness :
    validateFilter fW5 3 = Except.ok () ↔
      (fW5.operator ∈ validOperators ∧ specFilterRequirement fW5 = true) :=
  claim_C5_amended fW5 3 rfl (by decide) (by decide)

/-- An otherwise-complete configuration with an invalid non-empty chart
kind and an empty title. -/
def cfgC6a : ChartConfig :=
  { chartType := "Bad", title := "", tables := [{ name := "t" }],
    xAxis := { column := "x" }, yAxis := [{ column := "y" }] }

/-- An otherwise-complete configuration with an empty x-axis column and an
invalid join (missing condition). -/
def cfgC6b : ChartConfig :=
  { chartType := "line", title := "T",
    tables := [{ name := "t", joins := [{ table := "u" }] }],
    xAxis := { column := "" }, yAxis := [{ column := "y" }] }

/-- Claim C6, counterexample: the claim predicts the chart-kind error for
`cfgC6a` and the x-axis-column error for `cfgC6b`.  The validator instead
reports the title error for the first (chart-kind membership is only
checked after title, table-count and y-axis-count) and the join error for
the second (per-table join checks run before the x-axis check). -/
theorem claim_C6_counterexample :
    validateChartConfig cfgC6a = Except.error ("title is required") ∧
      validateChartConfig cfgC6b =
        Except.error ("join condition is required at table index 0, join index 0") :=
  ⟨rfl, rfl⟩

/-- Claim C6, amended: the validator fails fast in this order: empty
chart-kind, empty title, table-count, y-axis-count, chart-kind membership,
per-table name and join checks, x-axis column, y-axis checks, and finally
the per-filter checks; each conjunct exhibits one stage firing while every
earlier stage passes, whatever the remaining fields contain. -/
theorem claim_C6_amended :
    (∀ c : ChartConfig, c.chartType = "" →
      validateChartConfig c = Except.error ("chart_type is required")) ∧
    (∀ c : ChartConfig, c.chartType ≠ "" → c.title = "" →
      validateChartConfig c = Except.error ("title is required")) ∧
    (∀ c : ChartConfig, c.chartType ≠ "" → c.title ≠ "" → c.tables.length = 0 →
      validateChartConfig c = Except.error ("at least one table is required")) ∧
    (∀ c : ChartConfig, c.chartType ≠ "" → c.title ≠ "" → c.tables.length ≠ 0 →
      c.yAxis.length = 0 →
      validateChartConfig c = Except.error ("at least one y-axis is required")) ∧
    (∀ c : ChartConfig, c.chartType ≠ "" → c.title ≠ "" → c.tables.length ≠ 0 →
      c.yAxis.length ≠ 0 → contains validChartTypes c.chartType = false →
      validateChartConfig c = Except.error ("invalid chart_type: " ++ c.chartType ++
        ". Must be one of: " ++ String.intercalate (", ") validChartTypes)) ∧
    (∀ (c : ChartConfig) (e : String), c.chartType ≠ "" → c.title ≠ "" →
      c.tables.length ≠ 0 → c.yAxis.length ≠ 0 →
      contains validChartTypes c.chartType = true →
      validateTables c.tables 0 = Except.error e →
      validateChartConfig c = Except.error e) ∧
    (∀ c : ChartConfig, c.chartType ≠ "" → c.title ≠ "" → c.tables.length ≠ 0 →
      c.yAxis.length ≠ 0 → contains validChartTypes c.chartType = true →
      validateTables c.tables 0 = Except.ok () → c.xAxis.column = "" →
      validateChartConfig c = Except.error ("x_axis column is required")) ∧
    (∀ (c : ChartConfig) (e : String), c.chartType ≠ "" → c.title ≠ "" →
      c.tables.length ≠ 0 → c.yAxis.length ≠ 0 →
      contains validChartTypes c.chartType = true →
      validateTables c.tables 0 = Except.ok () → c.xAxis.column ≠ "" →
      validateYAxes c.yAxis 0 = Except.error e →
      validateChartConfig c = Except.error e) ∧
    (∀ c : ChartConfig, c.chartType ≠ "" → c.title ≠ "" → c.tables.length ≠ 0 →
      c.yAxis.length ≠ 0 → contains validChartTypes c.chartType = true →
      validateTables c.tables 0 = Except.ok () → c.xAxis.column ≠ "" →
      validateYAxes c.yAxis 0 = Except.ok () →
      validateChartConfig c = validateFilters c.filters 0) :=
  validateOrderSpec

def cfgW6 : ChartConfig := { chartType := "bar", title := "" }

/-- Witness for the amended C6: the title stage fires on `cfgW6`. -/
theorem claim_C6_amended_witness :
    validateChartConfig cfgW6 = Except.error ("title is required") :=
  claim_C6_amended.2.1 cfgW6 (by decide) rfl

/-- Claim C7: for every filter whose operator lower-cases to `=`, `!=` or
`<>`, a nil value emits `col IS NULL` (for `=`) or `col IS NOT NULL`
(otherwise) with no placeholder; a string "true"/"false" (case-insensitive)
or an actual boolean emits `col IS [NOT] TRUE/FALSE` with no placeholder;
any other scalar emits `col OP $n` and binds the value — as
`specEqExpansion` states. -/
theorem claim_C7 (f : FilterConfig) (idx : Nat)
    (hop : strToLower f.operator = "=" ∨ strToLower f.operator = "!=" ∨
      strToLower f.operator = "<>") :
    (buildFilter f idx).map (Except.map (fun r => (renderFrags r.1, r.2.1, r.2.2))) =
      some (Except.ok (specEqExpansion f idx)) :=
  buildFilterEqFamilyExpansion f idx hop

def fW7 : FilterConfig :=
  { column := "is_active", operator := "=", value := GoValue.str "true" }

/-- Witness for C7 at the boolean-string filter of the spec's example. -/
theorem claim_C7_witness :
    (buildFilter fW7 5).map (Except.map (fun r => (renderFrags r.1, r.2.1, r.2.2))) =
      some (Except.ok (specEqExpansion fW7 5)) :=
  claim_C7 fW7 5 (Or.inl (by decide))

/-- An accepted configuration with a raw filter that crashes the build
followed by an ordered comparison on a nil value — the claim's own
failure condition. -/
def cfgC8 : ChartConfig :=
  { chartType := "line", title := "T", tables := [{ name := "t" }],
    xAxis := { column := "x" }, yAxis := [{ column := "y" }],
    filters := [{ raw := "r", operator := "BETWEEN", values := [] },
      { column := "c", operator := "<", value := GoValue.nil, values := [GoValue.num 1] }] }

/-- Claim C8, counterexample: the claim says that for every validated
ChartSpec the build fails — returning an error with empty SQL and no
arguments — exactly when some filter uses BETWEEN with a NULL bound or an
ordered comparison with a NULL value.  `cfgC8` is accepted by
`ValidateAndNormalizeConfig` (its first filter is a raw override and
skips every structural check), and its second filter is an ordered
comparison with a nil value, so the claim demands the error return; but
the builder reaches the raw filter's BETWEEN branch first and reads
`Values[0]` out of range — the original program crashes instead of
returning any error, so the build neither succeeds nor fails as claimed. -/
theorem claim_C8_counterexample :
    ValidateAndNormalizeConfig cfgC8 = Except.ok (normalizeConfig cfgC8) ∧
      cfgC8.filters.any filterBuildFails = true ∧
      BuildChartQuery (normalizeConfig cfgC8) = none :=
  ⟨rfl, by decide, rfl⟩

/-- Claim C8, amended: for every configuration accepted by
`ValidateAndNormalizeConfig` in which no filter uses the raw escape hatch,
the build returns a result, and that result carries an error exactly when
some filter satisfies `filterBuildFails` — BETWEEN with a NULL bound, or
an ordered comparison with a nil value; these are the only build-time
failures, and on failure the SQL text is empty and no arguments are
returned. -/
theorem claim_C8_amended (c c2 : ChartConfig)
    (hval : ValidateAndNormalizeConfig c = Except.ok c2)
    (hraw : ∀ f ∈ c.filters, f.raw = "") :
    ∃ o, BuildChartQuery c2 = some o ∧
      (o.err.isSome = true ↔ c2.filters.any filterBuildFails = true) ∧
      (o.err.isSome = true → o.sql = "" ∧ o.args = []) := by
  obtain ⟨o, ho⟩ :=
    Option.isSome_iff_exists.mp (buildSucceedsOnValidatedNoRaw c c2 hval hraw)
  obtain ⟨h1, h2⟩ := BuildChartQuery_err_iff c2 o ho
  refine ⟨o, ho, h1, fun hs => ?_⟩
  obtain ⟨hf, ha⟩ := h2 hs
  refine ⟨?_, ha⟩
  rw [BuildOutput.sql, hf]
  rfl

/-- A validated raw-free configuration with a BETWEEN filter carrying a
NULL bound. -/
def cfgW8 : ChartConfig :=
  { chartType := "line", title := "T", tables := [{ name := "t" }],
    xAxis := { column := "x" }, yAxis := [{ column := "y" }],
    filters := [{ column := "b", operator := "BETWEEN", values := [GoValue.nil, GoValue.num 5] }] }

/-- Witness for the amended C8 at `cfgW8`, whose build errors out. -/
theorem claim_C8_amended_witness :
    ∃ o, BuildChartQuery (normalizeConfig cfgW8) = some o ∧
      (o.err.isSome = true ↔
        (normalizeConfig cfgW8).filters.any filterBuildFails = true) ∧
      (o.err.isSome = true → o.sql = "" ∧ o.args = []) :=
  claim_C8_amended cfgW8 (normalizeConfig cfgW8) rfl (by decide)

/-- An accepted configuration whose raw filter still carries operator
`BETWEEN` with no values. -/
def cfgC9 : ChartConfig :=
  { chartType := "line", title := "T", tables := [{ name := "t" }],
    xAxis := { column := "x" }, yAxis := [{ column := "y" }],
    filters := [{ raw := "r", operator := "BETWEEN", values := [] }] }

/-- Claim C9, counterexample: `cfgC9` is accepted by
`ValidateAndNormalizeConfig` (raw filters skip every structural check),
yet the builder takes the BETWEEN branch for it and reads `Values[0]` out
of range — the embedded build returns `none`, the marker for the original
program's out-of-bounds access. -/
theorem claim_C9_counterexample :
    ValidateAndNormalizeConfig cfgC9 = Except.ok (normalizeConfig cfgC9) ∧
      BuildChartQuery (normalizeConfig cfgC9) = none :=
  ⟨rfl, rfl⟩

/-- Claim C9, amended: for every configuration accepted by
`ValidateAndNormalizeConfig` in which no filter uses the raw escape hatch,
the build performs no out-of-bounds access: `Tables[0]` exists and every
BETWEEN filter has exactly two values, so the build returns a result. -/
theorem claim_C9_amended (c c2 : ChartConfig)
    (hval : ValidateAndNormalizeConfig c = Except.ok c2)
    (hraw : ∀ f ∈ c.filters, f.raw = "") :
    (BuildChartQuery c2).isSome = true :=
  buildSucceedsOnValidatedNoRaw c c2 hval hraw

/-- A validated raw-free configuration with a well-formed BETWEEN filter. -/
def cfgW9 : ChartConfig :=
  { chartType := "line", title := "T", tables := [{ name := "t" }],
    xAxis := { column := "x" }, yAxis := [{ column := "y" }],
    filters := [{ column := "b", operator := "BETWEEN", values := [GoValue.num 1, GoValue.num 2] }] }

/-- Witness for the amended C9 at `cfgW9`. -/
theorem claim_C9_amended_witness :
    (BuildChartQuery (normalizeConfig cfgW9)).isSome = true :=
  claim_C9_amended cfgW9 (normalizeConfig cfgW9) rfl (by decide)

/-- A configuration that is valid except for its mixed-case kind "Line". -/
def cfgLine : ChartConfig :=
  { chartType := "Line", title := "T", tables := [{ name := "t" }],
    xAxis := { column := "x" }, yAxis := [{ column := "y" }] }

/-- Claim C10: chart-kind checking is case-sensitive while normalization
lowercases afterwards: every accepted configuration's `chartType` is
literally a member of the lowercase list `validChartTypes`, the normalized
copy carries `strToLower chartType`, and the mixed-case kind "Line" is
rejected with the chart-kind error. -/
theorem claim_C10 :
    (∀ c c2 : ChartConfig, ValidateAndNormalizeConfig c = Except.ok c2 →
      c.chartType ∈ validChartTypes ∧ c2.chartType = strToLower c.chartType) ∧
    validateChartConfig cfgLine = Except.error ("invalid chart_type: Line. Must be one of: line, bar, pie, scatter, area, histogram") :=
  ⟨chartTypeCheckAndNormalize, rfl⟩

def cfgW10 : ChartConfig :=
  { chartType := "line", title := "T", tables := [{ name := "t" }],
    xAxis := { column := "x" }, yAxis := [{ column := "y" }] }

/-- Witness for C10's universal part at `cfgW10`. -/
theorem claim_C10_witness :
    cfgW10.chartType ∈ validChartTypes ∧
      (normalizeConfig cfgW10).chartType = strToLower cfgW10.chartType :=
  claim_C10.1 cfgW10 (normalizeConfig cfgW10) rfl
